import Mathlib

/-!
Shallow embedding of `src/main.py` (a PDF page-numbering tool for duplex
printing) together with theorems settling the specification claims.

The document engine (PyMuPDF / `fitz`) is an external collaborator; its
operations used by the program (page enumeration, text-width measurement,
annotation insertion, annotation baking, save) are modelled explicitly below,
following the black-box interface the program relies on.
-/

namespace SeitenzahlenEinfueger

/-! ### Path derivation helpers (`default_numbered_output_path`,
`default_print_safe_output_path`, src/main.py lines 24-33).

Python strings are modelled as Lean `String`; the Python slice `s[:-4]`
(drop the last four characters) is modelled as taking the first
`length - 4` characters of the character sequence. -/

/-- Model of Python `s[:-4]`: all characters of `s` but the last four. -/
def dropLast4 (s : String) : String :=
  ⟨s.data.take (s.data.length - 4)⟩

/-- Model of Python `s.lower().endswith(".pdf")`: lower-case every character
of the string and test whether `.pdf` is a suffix of the result. -/
def lowerEndsWithPdf (s : String) : Bool :=
  ".pdf".data.isSuffixOf (s.data.map Char.toLower)

/-- `default_numbered_output_path` (src/main.py lines 24-27):
if the input path ends in `.pdf` case-insensitively, strip that suffix,
then append `_nummeriert.pdf`. -/
def default_numbered_output_path (input_path : String) : String :=
  if lowerEndsWithPdf input_path then
    dropLast4 input_path ++ "_nummeriert.pdf"
  else
    input_path ++ "_nummeriert.pdf"

/-- `default_print_safe_output_path` (src/main.py lines 30-33):
same rule with suffix `_drucksicher.pdf`. -/
def default_print_safe_output_path (numbered_output_path : String) : String :=
  if lowerEndsWithPdf numbered_output_path then
    dropLast4 numbered_output_path ++ "_drucksicher.pdf"
  else
    numbered_output_path ++ "_drucksicher.pdf"

/-- The spec's wording for recognizing and stripping the `.pdf` suffix
(section 4.3 `stripSuffix(input, ".pdf")`), phrased independently of the
code: when the last four characters, lower-cased, read `.pdf`, drop them. -/
def stripRecognizedPdf (s : String) : String :=
  if (s.data.drop (s.data.length - 4)).map Char.toLower = ".pdf".data then
    dropLast4 s
  else
    s

/-- The spec's shared path rule (section 4.3), with the suffix as a
parameter: strip a recognized `.pdf` suffix, then append the given suffix.
Used to state that both defaults follow one rule. -/
def pathWithSuffix (s suffix : String) : String :=
  stripRecognizedPdf s ++ suffix

/-! ### CLI control flow (`main`, src/main.py lines 143-200).

`main` is modelled as a pure function from parsed arguments to the exit
code together with the ordered list of engine write events that the run
performs (on the path where the engine operations themselves succeed).
`add_page_numbers` performs its final `doc.save(output_path, ...)` at
line 118; `create_print_safe_pdf` performs its `doc.save(output_pdf, ...)`
at line 137.  `argparse` optional arguments that were not supplied are
modelled as `none`. -/

/-- A file write performed by one of the two passes. -/
inductive WriteEvent where
  /-- the Numbering Pass saving the numbered artifact (line 118) -/
  | numberingWrite (path : String)
  /-- the Bake Pass saving the print-safe artifact (line 137) -/
  | bakeWrite (path : String)
deriving DecidableEq, Repr

/-- Parsed CLI arguments (src/main.py lines 144-175). -/
structure Args where
  input_pdf : String
  output_pdf : Option String
  start_page_number : ℤ
  no_print_safe : Bool
  print_safe_output : Option String
deriving DecidableEq, Repr

/-- `main` (src/main.py lines 177-200), modelled as exit code plus the
ordered write events of the successful-engine path.  Exit code 0 models
normal return. -/
def mainRun (args : Args) : ℕ × List WriteEvent :=
  let output_path := (args.output_pdf).getD (default_numbered_output_path args.input_pdf)
  if args.start_page_number < 1 then
    (1, [])
  else
    let afterNumbering := [WriteEvent.numberingWrite output_path]
    if args.no_print_safe then
      (0, afterNumbering)
    else
      let print_safe_output :=
        (args.print_safe_output).getD (default_print_safe_output_path output_path)
      if print_safe_output = output_path then
        (1, afterNumbering)
      else
        (0, afterNumbering ++ [WriteEvent.bakeWrite print_safe_output])

/-! ### Numbering Pass (`add_page_numbers`, src/main.py lines 36-121).

Coordinates and widths are modelled as rationals.  `main` enforces
`start_page_number >= 1` before calling the pass, so the pass is embedded
over natural-number start values; display numbers are naturals. -/

/-- `font_size = 11` (line 51). -/
def font_size : ℚ := 11

/-- `margin_x = 20` (line 54). -/
def margin_x : ℚ := 20

/-- `margin_y = 25` (line 55). -/
def margin_y : ℚ := 25

/-- Model of the document engine's text measurement
`fitz.get_text_length(text, fontname="helv", fontsize=...)` (line 72):
the sum of the per-character Helvetica advance widths (in 1/1000 em;
every decimal digit glyph has width 556, the hyphen-minus 333), scaled by
the font size.  The program only ever measures decimal numeral strings. -/
def helvCharWidth (c : Char) : ℚ :=
  if c.isDigit then 556 else if c = '-' then 333 else 0

/-- Engine text-width measurement (see `helvCharWidth`). -/
def get_text_length (text : String) (fontsize : ℚ) : ℚ :=
  (text.data.map helvCharWidth).sum * fontsize / 1000

/-- `display_num = page_num + start_page_number` (line 59). -/
def display_num (page_num start_page_number : ℕ) : ℕ :=
  page_num + start_page_number

/-- `is_front = (display_num % 2 == 1)` (line 60). -/
def is_front (display : ℕ) : Bool :=
  display % 2 == 1

/-- A `fitz.Rect(x0, y0, x1, y1)`; y is measured from the page top. -/
structure Rect where
  x0 : ℚ
  y0 : ℚ
  x1 : ℚ
  y1 : ℚ
deriving DecidableEq, Repr

/-- `box_width = actual_text_width + 6` (lines 72-73), for the decimal
string of the display number. -/
def box_width (display : ℕ) : ℚ :=
  get_text_length (Nat.repr display) font_size + 6

/-- `box_height = font_size + 2` (line 74). -/
def box_height : ℚ :=
  font_size + 2

/-- The annotation rectangle of one page (lines 76-90): y from `margin_y`,
x anchored left of the page on front pages and right on back pages. -/
def annot_rect (page_width : ℚ) (display : ℕ) : Rect :=
  if is_front display then
    { x0 := margin_x, y0 := margin_y,
      x1 := margin_x + box_width display, y1 := margin_y + box_height }
  else
    { x0 := page_width - margin_x - box_width display, y0 := margin_y,
      x1 := page_width - margin_x, y1 := margin_y + box_height }

/-- An annotation as inserted by the program: either the FreeText marker
(lines 93-105) or the border rectangle (lines 108-112).  Colors are RGB
triples; `align = 1` is `fitz.TEXT_ALIGN_CENTER`. -/
inductive Annot where
  | freeText (rect : Rect) (text : String) (fontsize : ℚ) (align : ℕ)
      (textColor fillColor : ℚ × ℚ × ℚ) (printable : Bool)
  | rectBorder (rect : Rect) (strokeColor : ℚ × ℚ × ℚ) (borderWidth : ℚ)
      (printable : Bool)
deriving DecidableEq, Repr

/-- Permanent page content: either original content of the input document
(opaque), or the flattened remains of an annotation or widget after bake. -/
inductive ContentItem where
  | original (d : ℕ)
  | flattenedAnnot (a : Annot)
  | flattenedWidget (w : ℕ)
deriving DecidableEq, Repr

/-- One element of a page's markup: permanent content, an interactive form
widget, or an annotation. -/
inductive PageElem where
  | content (c : ContentItem)
  | widget (w : ℕ)
  | annot (a : Annot)
deriving DecidableEq, Repr

/-- A page: fixed size plus its ordered markup elements. -/
structure Page where
  width : ℚ
  height : ℚ
  elems : List PageElem
deriving DecidableEq, Repr

/-- A document: its ordered pages. -/
structure Document where
  pages : List Page
deriving DecidableEq, Repr

/-- The loop body of `add_page_numbers` for one page (lines 57-112):
append the FreeText marker, then the border-rectangle marker, both flagged
printable (`PDF_ANNOT_IS_PRINT`, lines 104 and 111). -/
def number_page (start_page_number page_num : ℕ) (page : Page) : Page :=
  { page with elems := page.elems ++
      [PageElem.annot (Annot.freeText
          (annot_rect page.width (display_num page_num start_page_number))
          (Nat.repr (display_num page_num start_page_number))
          font_size 1 (0, 0, 0) (1, 1, 1) true),
       PageElem.annot (Annot.rectBorder
          (annot_rect page.width (display_num page_num start_page_number))
          (0, 0, 0) (1 / 2) true)] }

/-- The page loop of `add_page_numbers` (line 57), with the running page
index made explicit. -/
def number_pages (start_page_number : ℕ) : ℕ → List Page → List Page
  | _, [] => []
  | i, p :: ps =>
      number_page start_page_number i p :: number_pages start_page_number (i + 1) ps

/-- `add_page_numbers` (lines 36-121), pure core: the document as saved to
the output path. -/
def add_page_numbers (doc : Document) (start_page_number : ℕ) : Document :=
  { pages := number_pages start_page_number 0 doc.pages }

/-! ### Bake Pass (`create_print_safe_pdf`, src/main.py lines 124-140). -/

/-- Model of the engine's `doc.bake(annots, widgets)` on one element:
flattening converts the selected element kinds into permanent content and
leaves everything else untouched. -/
def bakeElem (annots widgets : Bool) : PageElem → PageElem
  | PageElem.annot a =>
      if annots then PageElem.content (ContentItem.flattenedAnnot a) else PageElem.annot a
  | PageElem.widget w =>
      if widgets then PageElem.content (ContentItem.flattenedWidget w) else PageElem.widget w
  | PageElem.content c => PageElem.content c

/-- `doc.bake(annots, widgets)` on one page. -/
def bakePage (annots widgets : Bool) (p : Page) : Page :=
  { p with elems := p.elems.map (bakeElem annots widgets) }

/-- `doc.bake(annots, widgets)` on a document. -/
def bakeDoc (annots widgets : Bool) (d : Document) : Document :=
  { pages := d.pages.map (bakePage annots widgets) }

/-- The installed document engine: whether `fitz.Document` has the `bake`
capability (probed by `hasattr` at line 128). -/
structure Engine where
  hasBake : Bool
deriving DecidableEq, Repr

/-- The error taxonomy of the Bake Pass: the dedicated capability error
raised at line 129, and the engine's open/write failures. -/
inductive PdfError where
  | unsupportedEngine
  | documentOpen
  | documentWrite
deriving DecidableEq, Repr

/-- `create_print_safe_pdf` (lines 124-140): the capability probe comes
first (before the source document is opened); then the source is opened
(`none` models an unreadable path), `doc.bake(annots=True, widgets=False)`
runs (line 136), and the result is saved (`writable` models whether the
save succeeds). -/
def create_print_safe_pdf (eng : Engine) (source : Option Document)
    (writable : Bool) : Except PdfError Document :=
  if !eng.hasBake then
    Except.error PdfError.unsupportedEngine
  else
    match source with
    | none => Except.error PdfError.documentOpen
    | some doc =>
        if writable then Except.ok (bakeDoc true false doc)
        else Except.error PdfError.documentWrite

/-- Whether a page element is an annotation. -/
def isAnnotElem : PageElem → Bool
  | PageElem.annot _ => true
  | _ => false

/-- Whether a page element is an interactive form widget. -/
def isWidgetElem : PageElem → Bool
  | PageElem.widget _ => true
  | _ => false

/-- `digit_count n` is the length of the decimal numeral the program writes
for display number `n`. -/
def digit_count (n : ℕ) : ℕ :=
  (Nat.repr n).length

/-- A concrete one-page document used by witnesses: page size 595x842 with
one pre-existing widget element. -/
def doc0 : Document :=
  ⟨[⟨595, 842, [PageElem.widget 7]⟩]⟩

/-! ### Helper lemmas about the path functions -/

theorem length_mk (l : List Char) : (String.mk l).length = l.length := rfl

theorem lowerEndsWithPdf_iff (s : String) :
    lowerEndsWithPdf s = true ↔
      (s.data.drop (s.data.length - 4)).map Char.toLower = ".pdf".data := by
  unfold lowerEndsWithPdf
  rw [List.isSuffixOf_iff_suffix, List.suffix_iff_eq_drop]
  rw [List.map_drop, List.length_map]
  constructor
  · intro h
    exact h.symm
  · intro h
    exact h.symm

theorem default_print_safe_output_path_length (s : String) :
    s.length < (default_print_safe_output_path s).length := by
  unfold default_print_safe_output_path dropLast4
  have hs : s.length = s.data.length := rfl
  have hsuf : ("_drucksicher.pdf" : String).length = 16 := rfl
  split
  · simp only [String.length_append, length_mk, List.length_take, hsuf]
    omega
  · simp only [String.length_append, hsuf]
    omega

theorem default_print_safe_output_path_ne (s : String) :
    default_print_safe_output_path s ≠ s := by
  intro h
  have := default_print_safe_output_path_length s
  rw [h] at this
  exact Nat.lt_irrefl _ this

/-! ### Claims C5, C10, C4 -/

/-- C5 counterexample: the code appends the German suffixes
`_nummeriert.pdf` and `_drucksicher.pdf`, not `_numbered.pdf` and
`_printsafe.pdf` as the claim states; shown concretely on input `a.pdf`. -/
theorem C5_counterexample :
    default_numbered_output_path "a.pdf" = "a_nummeriert.pdf" ∧
    default_numbered_output_path "a.pdf" ≠ "a_numbered.pdf" ∧
    default_print_safe_output_path "a_nummeriert.pdf" = "a_nummeriert_drucksicher.pdf" ∧
    default_print_safe_output_path "a_nummeriert.pdf" ≠ "a_nummeriert_printsafe.pdf" := by
  refine ⟨by decide, by decide, by decide, by decide⟩

/-- C5 (amended): for every input string, the default numbered-output path
equals the input with a recognized `.pdf` suffix stripped (case-insensitive
recognition) and `_nummeriert.pdf` appended (appended directly when no
recognized suffix is present), and the default print-safe path follows the
same rule with suffix `_drucksicher.pdf`; both are pure functions. -/
theorem C5_paths_follow_strip_and_append_rule (s : String) :
    default_numbered_output_path s = pathWithSuffix s "_nummeriert.pdf" ∧
    default_print_safe_output_path s = pathWithSuffix s "_drucksicher.pdf" := by
  unfold default_numbered_output_path default_print_safe_output_path
    pathWithSuffix stripRecognizedPdf
  by_cases h : lowerEndsWithPdf s = true
  · have h2 := (lowerEndsWithPdf_iff s).mp h
    rw [if_pos h, if_pos h, if_pos h2]
    exact ⟨rfl, rfl⟩
  · have h2 : ¬ (s.data.drop (s.data.length - 4)).map Char.toLower = ".pdf".data :=
      fun hc => h ((lowerEndsWithPdf_iff s).mpr hc)
    rw [if_neg h, if_neg h, if_neg h2]
    exact ⟨rfl, rfl⟩

/-- C5 witness: the amended rule evaluated at the concrete input `a.PDF`
(case-insensitive recognition visible). -/
theorem C5_paths_follow_strip_and_append_rule_witness :
    default_numbered_output_path "a.PDF" = pathWithSuffix "a.PDF" "_nummeriert.pdf" ∧
    default_print_safe_output_path "a.PDF" = pathWithSuffix "a.PDF" "_drucksicher.pdf" :=
  C5_paths_follow_strip_and_append_rule "a.PDF"

/-- C10: the derived default print-safe path always differs from its input
(a non-empty suffix is appended after optional stripping), so when
`--print-safe-output` is omitted the collision branch of `main` is
unreachable: the run exits 0 and the Bake Pass write occurs. -/
theorem C10_default_print_safe_never_collides :
    (∀ s : String, default_print_safe_output_path s ≠ s) ∧
    ∀ args : Args, args.print_safe_output = none →
      ¬ args.start_page_number < 1 →
      args.no_print_safe = false →
      (mainRun args).1 = 0 ∧
        WriteEvent.bakeWrite
            (default_print_safe_output_path
              ((args.output_pdf).getD (default_numbered_output_path args.input_pdf)))
          ∈ (mainRun args).2 := by
  refine ⟨default_print_safe_output_path_ne, ?_⟩
  intro args hnone hstart hnps
  unfold mainRun
  rw [if_neg hstart, hnps, if_neg Bool.false_ne_true, hnone]
  simp only [Option.getD_none]
  rw [if_neg (default_print_safe_output_path_ne _)]
  exact ⟨rfl, by simp⟩

/-- C10 witness: a concrete run with `--print-safe-output` omitted. -/
theorem C10_default_print_safe_never_collides_witness :
    default_print_safe_output_path "a_nummeriert.pdf" ≠ "a_nummeriert.pdf" ∧
    ((mainRun ⟨"a.pdf", none, 1, false, none⟩).1 = 0 ∧
      WriteEvent.bakeWrite
          (default_print_safe_output_path
            ((none : Option String).getD (default_numbered_output_path "a.pdf")))
        ∈ (mainRun ⟨"a.pdf", none, 1, false, none⟩).2) :=
  ⟨C10_default_print_safe_never_collides.1 "a_nummeriert.pdf",
   C10_default_print_safe_never_collides.2 ⟨"a.pdf", none, 1, false, none⟩ rfl
     (by decide) rfl⟩

/-- C4 counterexample: with `--print-safe-output` equal to the numbered
output path, the run does exit with code 1 and the Bake Pass is skipped,
but the Numbering Pass has already completed and written the numbered
artifact, so the claim's "neither pipeline stage's final write occurs" and
"detected eagerly before any file I/O" are false. -/
theorem C4_counterexample :
    (mainRun ⟨"in.pdf", some "out.pdf", 1, false, some "out.pdf"⟩).1 = 1 ∧
    WriteEvent.numberingWrite "out.pdf"
      ∈ (mainRun ⟨"in.pdf", some "out.pdf", 1, false, some "out.pdf"⟩).2 := by
  refine ⟨by decide, by decide⟩

/-- C4 (amended): if the requested print-safe output path equals the
numbered-output path (with a valid start number and the Bake Pass not
disabled), the process exits with code 1 and the Bake Pass is not invoked;
the collision is detected only after the Numbering Pass has completed and
written the numbered artifact, not before file I/O. -/
theorem C4_collision_exits_after_numbering (args : Args)
    (hstart : ¬ args.start_page_number < 1)
    (hnps : args.no_print_safe = false)
    (hcol : (args.print_safe_output).getD
        (default_print_safe_output_path
          ((args.output_pdf).getD (default_numbered_output_path args.input_pdf)))
      = (args.output_pdf).getD (default_numbered_output_path args.input_pdf)) :
    mainRun args =
      (1, [WriteEvent.numberingWrite
            ((args.output_pdf).getD (default_numbered_output_path args.input_pdf))]) := by
  unfold mainRun
  rw [if_neg hstart, hnps, if_neg Bool.false_ne_true, if_pos hcol]

/-- C4 witness: the amended behaviour at a concrete colliding configuration. -/
theorem C4_collision_exits_after_numbering_witness :
    mainRun ⟨"in.pdf", some "out.pdf", 1, false, some "out.pdf"⟩ =
      (1, [WriteEvent.numberingWrite "out.pdf"]) :=
  C4_collision_exits_after_numbering ⟨"in.pdf", some "out.pdf", 1, false, some "out.pdf"⟩
    (by decide) rfl rfl

/-! ### Claims C1, C2, C3 -/

/-- C1: for every 0-based page index and start number at least 1, the
display number is index + start, the page is Front exactly when the display
number is odd and Back exactly when it is even, and a start number of 2
flips the side of every physical page relative to start number 1. -/
theorem C1_display_number_and_side (i start : ℕ) (_hstart : 1 ≤ start) :
    display_num i start = i + start ∧
    (is_front (display_num i start) = true ↔ Odd (display_num i start)) ∧
    (is_front (display_num i start) = false ↔ Even (display_num i start)) ∧
    is_front (display_num i 2) = !is_front (display_num i 1) := by
  refine ⟨rfl, ?_, ?_, ?_⟩
  · simp [is_front, Nat.odd_iff]
  · simp [is_front, Nat.even_iff]
  · rcases Nat.mod_two_eq_zero_or_one i with h2 | h2
    · have a : (i + 2) % 2 = 0 := by omega
      have b : (i + 1) % 2 = 1 := by omega
      simp [is_front, display_num, a, b]
    · have a : (i + 2) % 2 = 1 := by omega
      have b : (i + 1) % 2 = 0 := by omega
      simp [is_front, display_num, a, b]

/-- C1 witness: page index 3 with start number 2. -/
theorem C1_display_number_and_side_witness :
    display_num 3 2 = 3 + 2 ∧
    (is_front (display_num 3 2) = true ↔ Odd (display_num 3 2)) ∧
    (is_front (display_num 3 2) = false ↔ Even (display_num 3 2)) ∧
    is_front (display_num 3 2) = !is_front (display_num 3 1) :=
  C1_display_number_and_side 3 2 (by decide)

/-- C2: the horizontal anchor of the insertion rectangle depends only on
the side: on Front pages `x0 = margin_x` and `x1 = x0 + box_width`; on Back
pages `x1 = page_width - margin_x` and `x0 = x1 - box_width`, whatever the
page's own width. -/
theorem C2_horizontal_anchor (page_width : ℚ) (n : ℕ) :
    (is_front n = true →
      (annot_rect page_width n).x0 = margin_x ∧
      (annot_rect page_width n).x1 = (annot_rect page_width n).x0 + box_width n) ∧
    (is_front n = false →
      (annot_rect page_width n).x1 = page_width - margin_x ∧
      (annot_rect page_width n).x0 = (annot_rect page_width n).x1 - box_width n) := by
  constructor <;> intro h <;> simp [annot_rect, h]

/-- C2 witness: a front page (display number 1) and a back page (display
number 2) on A4 width 595. -/
theorem C2_horizontal_anchor_witness :
    ((annot_rect 595 1).x0 = margin_x ∧
      (annot_rect 595 1).x1 = (annot_rect 595 1).x0 + box_width 1) ∧
    ((annot_rect 595 2).x1 = 595 - margin_x ∧
      (annot_rect 595 2).x0 = (annot_rect 595 2).x1 - box_width 2) :=
  ⟨(C2_horizontal_anchor 595 1).1 rfl, (C2_horizontal_anchor 595 2).2 rfl⟩

/-- C3: the insertion rectangle's size and vertical placement: box width is
the measured Helvetica size-11 width of the display number's decimal string
plus 6, box height is `font_size + 2 = 13`, the top edge sits at
`margin_y = 25` from the page top and the bottom edge `box_height` below. -/
theorem C3_box_size_and_vertical_placement (page_width : ℚ) (n : ℕ) :
    box_width n = get_text_length (Nat.repr n) font_size + 6 ∧
    box_height = font_size + 2 ∧
    box_height = 13 ∧
    (annot_rect page_width n).y0 = margin_y ∧
    margin_y = 25 ∧
    (annot_rect page_width n).y1 = (annot_rect page_width n).y0 + box_height := by
  refine ⟨rfl, rfl, by norm_num [box_height, font_size], ?_, rfl, ?_⟩ <;>
    unfold annot_rect <;> split <;> rfl

/-! ### Claim C9: box width is monotone in the digit count -/

theorem digitChar_isDigit (m : ℕ) (hm : m < 10) :
    (Nat.digitChar m).isDigit = true := by
  interval_cases m <;> decide

theorem toDigitsCore_digits (fuel : ℕ) :
    ∀ (n : ℕ) (acc : List Char), (∀ c ∈ acc, c.isDigit = true) →
      ∀ c ∈ Nat.toDigitsCore 10 fuel n acc, c.isDigit = true := by
  induction fuel with
  | zero =>
    intro n acc hacc c hc
    exact hacc c hc
  | succ fuel ih =>
    intro n acc hacc c hc
    rw [Nat.toDigitsCore] at hc
    have hd : (Nat.digitChar (n % 10)).isDigit = true :=
      digitChar_isDigit _ (Nat.mod_lt _ (by norm_num))
    by_cases h0 : n / 10 = 0
    · rw [if_pos h0] at hc
      rcases List.mem_cons.mp hc with h | h
      · rw [h]; exact hd
      · exact hacc c h
    · rw [if_neg h0] at hc
      refine ih (n / 10) _ ?_ c hc
      intro d hdmem
      rcases List.mem_cons.mp hdmem with h | h
      · rw [h]; exact hd
      · exact hacc d h

theorem repr_all_digits (n : ℕ) :
    ∀ c ∈ (Nat.repr n).data, c.isDigit = true := by
  have hd : (Nat.repr n).data = Nat.toDigits 10 n := rfl
  rw [hd, Nat.toDigits]
  exact toDigitsCore_digits (n + 1) n [] (by intro c hc; cases hc)

theorem sum_helvCharWidth_of_digits (l : List Char)
    (h : ∀ c ∈ l, c.isDigit = true) :
    (l.map helvCharWidth).sum = 556 * l.length := by
  induction l with
  | nil => simp
  | cons a t ih =>
    simp only [List.map_cons, List.sum_cons, List.length_cons]
    rw [ih fun c hc => h c (List.mem_cons_of_mem a hc)]
    have ha := h a (List.mem_cons_self a t)
    simp only [helvCharWidth, ha, if_pos]
    push_cast
    ring

theorem box_width_formula (n : ℕ) :
    box_width n = 556 * digit_count n * font_size / 1000 + 6 := by
  unfold box_width get_text_length digit_count
  rw [sum_helvCharWidth_of_digits _ (repr_all_digits n)]
  rfl

/-- C9: the insertion rectangle's width is a monotonically non-decreasing
function of the digit count of the display number: whenever one display
number has at most as many decimal digits as another, its box is at most
as wide. -/
theorem C9_box_width_monotone_in_digit_count (m n : ℕ)
    (h : digit_count m ≤ digit_count n) :
    box_width m ≤ box_width n := by
  rw [box_width_formula, box_width_formula]
  have hc : (digit_count m : ℚ) ≤ (digit_count n : ℚ) := Nat.cast_le.mpr h
  have hf : (0 : ℚ) < font_size := by norm_num [font_size]
  have hmul : 556 * (digit_count m : ℚ) * font_size ≤
      556 * (digit_count n : ℚ) * font_size := by
    have h1 : 556 * (digit_count m : ℚ) ≤ 556 * (digit_count n : ℚ) := by
      nlinarith
    nlinarith
  have hdiv : 556 * (digit_count m : ℚ) * font_size / 1000 ≤
      556 * (digit_count n : ℚ) * font_size / 1000 := by
    apply div_le_div_of_nonneg_right hmul (by norm_num) |>.trans_eq rfl
  linarith

/-- C9 witness: display number 9 (one digit) versus 10 (two digits). -/
theorem C9_box_width_monotone_in_digit_count_witness :
    digit_count 9 ≤ digit_count 10 ∧ box_width 9 ≤ box_width 10 :=
  ⟨by decide, C9_box_width_monotone_in_digit_count 9 10 (by decide)⟩

/-! ### Claim C8: the Numbering Pass appends exactly one marker per page -/

theorem number_pages_length (start i : ℕ) (ps : List Page) :
    (number_pages start i ps).length = ps.length := by
  induction ps generalizing i with
  | nil => rfl
  | cons p t ih => simp [number_pages, ih]

theorem number_pages_get? (start : ℕ) (ps : List Page) :
    ∀ i k : ℕ, (number_pages start i ps).get? k
      = (ps.get? k).map (number_page start (i + k)) := by
  induction ps with
  | nil =>
    intro i k
    simp [number_pages]
  | cons p t ih =>
    intro i k
    cases k with
    | zero => simp [number_pages]
    | succ k =>
      simp only [number_pages, List.get?_cons_succ, ih (i + 1) k]
      rw [show i + 1 + k = i + (k + 1) from by omega]

/-- C8: on every page the Numbering Pass appends exactly one marker — the
FreeText annotation followed by the border-rectangle annotation, both
flagged printable — at the end of the page's existing markup (so nothing
pre-existing is removed, replaced or mutated), the output page count equals
the input page count, and consecutive display numbers increase by exactly
one. -/
theorem C8_numbering_appends_exactly_one_marker (doc : Document) (start i : ℕ)
    (h : i < doc.pages.length) :
    (add_page_numbers doc start).pages.length = doc.pages.length ∧
    ((add_page_numbers doc start).pages.get
        ⟨i, by rw [show (add_page_numbers doc start).pages = number_pages start 0 doc.pages
                from rfl, number_pages_length]; exact h⟩).elems =
      (doc.pages.get ⟨i, h⟩).elems ++
        [PageElem.annot (Annot.freeText
            (annot_rect (doc.pages.get ⟨i, h⟩).width (display_num i start))
            (Nat.repr (display_num i start)) font_size 1 (0, 0, 0) (1, 1, 1) true),
         PageElem.annot (Annot.rectBorder
            (annot_rect (doc.pages.get ⟨i, h⟩).width (display_num i start))
            (0, 0, 0) (1 / 2) true)] ∧
    display_num (i + 1) start = display_num i start + 1 := by
  refine ⟨number_pages_length start 0 doc.pages, ?_, ?_⟩
  · have hlen : i < (number_pages start 0 doc.pages).length := by
      rw [number_pages_length]
      exact h
    have hq := number_pages_get? start doc.pages 0 i
    rw [List.get?_eq_get hlen, List.get?_eq_get h, Option.map_some'] at hq
    have hpage : (number_pages start 0 doc.pages).get ⟨i, hlen⟩
        = number_page start (0 + i) (doc.pages.get ⟨i, h⟩) := Option.some.inj hq
    show ((number_pages start 0 doc.pages).get ⟨i, hlen⟩).elems = _
    rw [hpage, Nat.zero_add]
    rfl
  · simp [display_num]
    omega

/-- C8 witness: the one-page concrete document, start number 1. -/
theorem C8_numbering_appends_exactly_one_marker_witness :
    0 < doc0.pages.length ∧
    (add_page_numbers doc0 1).pages.length = doc0.pages.length :=
  ⟨by decide, (C8_numbering_appends_exactly_one_marker doc0 1 0 (by decide)).1⟩

/-! ### Claims C6 and C7: the Bake Pass -/

theorem bakeElem_not_annot (e : PageElem) :
    isAnnotElem (bakeElem true false e) = false := by
  cases e <;> rfl

theorem bake_filter_widget (l : List PageElem) :
    (l.map (bakeElem true false)).filter isWidgetElem = l.filter isWidgetElem := by
  induction l with
  | nil => rfl
  | cons e t ih => cases e <;> simp [bakeElem, isWidgetElem, ih]

theorem bake_mem_flattened (l : List PageElem) (a : Annot)
    (h : PageElem.annot a ∈ l) :
    PageElem.content (ContentItem.flattenedAnnot a) ∈ l.map (bakeElem true false) := by
  have he : bakeElem true false (PageElem.annot a)
      = PageElem.content (ContentItem.flattenedAnnot a) := rfl
  rw [← he]
  exact List.mem_map_of_mem _ h

/-- C6: the Bake Pass invokes the engine's flattening scoped to annotations
only (`annots := true`, `widgets := false`): afterwards no annotation
element remains on any page, every annotation of the numbered document —
in particular the inserted markers — has become permanent content, and the
interactive form widgets of every page are exactly those of the input. -/
theorem C6_bake_flattens_annots_only (eng : Engine) (heng : eng.hasBake = true)
    (doc : Document) :
    create_print_safe_pdf eng (some doc) true = Except.ok (bakeDoc true false doc) ∧
    (∀ p ∈ (bakeDoc true false doc).pages, ∀ e ∈ p.elems, isAnnotElem e = false) ∧
    (bakeDoc true false doc).pages.length = doc.pages.length ∧
    List.Forall₂
      (fun pIn pOut =>
        pOut.elems.filter isWidgetElem = pIn.elems.filter isWidgetElem ∧
        ∀ a : Annot, PageElem.annot a ∈ pIn.elems →
          PageElem.content (ContentItem.flattenedAnnot a) ∈ pOut.elems)
      doc.pages (bakeDoc true false doc).pages := by
  refine ⟨?_, ?_, ?_, ?_⟩
  · unfold create_print_safe_pdf
    rw [heng]
    rfl
  · intro p hp e he
    rcases List.mem_map.mp hp with ⟨pIn, _hmem, hpeq⟩
    rw [← hpeq] at he
    rcases List.mem_map.mp he with ⟨eIn, _hein, heeq⟩
    rw [← heeq]
    exact bakeElem_not_annot eIn
  · simp [bakeDoc]
  · show List.Forall₂ _ doc.pages (doc.pages.map (bakePage true false))
    induction doc.pages with
    | nil => exact List.Forall₂.nil
    | cons p t ih =>
      exact List.Forall₂.cons
        ⟨bake_filter_widget p.elems, fun a ha => bake_mem_flattened p.elems a ha⟩ ih

/-- C6 witness: a capable engine on the concrete one-page document. -/
theorem C6_bake_flattens_annots_only_witness :
    create_print_safe_pdf ⟨true⟩ (some doc0) true
      = Except.ok (bakeDoc true false doc0) :=
  (C6_bake_flattens_annots_only ⟨true⟩ rfl doc0).1

/-- C7: when the installed engine lacks the `bake` capability, the Bake
Pass fails with the dedicated unsupported-engine error, whatever the state
of the source document or output path — the capability probe precedes the
open, bake and save operations — and that error is distinct from the
document-open and document-write failures. -/
theorem C7_unsupported_engine_detected_first (eng : Engine)
    (h : eng.hasBake = false) (source : Option Document) (writable : Bool) :
    create_print_safe_pdf eng source writable
      = Except.error PdfError.unsupportedEngine ∧
    PdfError.unsupportedEngine ≠ PdfError.documentOpen ∧
    PdfError.unsupportedEngine ≠ PdfError.documentWrite := by
  refine ⟨?_, by simp, by simp⟩
  unfold create_print_safe_pdf
  rw [h]
  rfl

/-- C7 witness: an engine without `bake`, an unreadable source and an
unwritable output still report the unsupported-engine error. -/
theorem C7_unsupported_engine_detected_first_witness :
    create_print_safe_pdf ⟨false⟩ none false
      = Except.error PdfError.unsupportedEngine ∧
    PdfError.unsupportedEngine ≠ PdfError.documentOpen ∧
    PdfError.unsupportedEngine ≠ PdfError.documentWrite :=
  C7_unsupported_engine_detected_first ⟨false⟩ rfl none false

end SeitenzahlenEinfueger
